import Mathlib

/-!
Shallow embedding of the access-control and status-transition model of the
dashboard backend (FastAPI routes in app/routes/alumnos.py and
app/routes/actividad.py, SQLAlchemy models in app/models/).

Modelling conventions:
* database uuid / integer keys are modelled as Nat;
* timestamps are modelled as Nat (server-assigned, passed in explicitly);
* nullable columns are modelled as Option;
* a SQLAlchemy `query(...).filter(...).first()` is modelled as `List.find?`;
* `query(...).filter(...).all()` is `List.filter`; `order_by` is `List.mergeSort`;
* an endpoint that only reads returns `Except ApiError Resp`; a mutating
  endpoint returns `Except ApiError Resp × DB`, where the returned database is
  unchanged on every error path (the Python code raises before committing, and
  rolls back on commit failure);
* fresh ids generated by `uuid.uuid4()` and `now()` timestamps are explicit
  arguments;
* out of scope (external collaborators per the route code): token validation,
  photo upload to storage, JSON parsing of the `dias` form field.
-/

namespace Dashboard

/-- Row of table `personas` (app/models/persona.py). -/
structure Persona where
  id_persona : Nat
  auth_user_id : Nat
  nombre : String
  apellido : String
  email : Option String
  foto_url : Option String
  id_perfil : Nat
deriving Repr, DecidableEq

/-- Row of table `perfiles` (app/models/profile.py); nivel_acceso 1 = admin, 2 = moderator, 3 = user. -/
structure Profile where
  id_perfil : Nat
  descripcion : String
  nivel_acceso : Int
deriving Repr, DecidableEq

/-- Row of the join table `person_roles` (app/models/person_role.py); id_rol 1 = pastor, 2 = maestro. -/
structure PersonRole where
  person_id : Nat
  id_rol : Nat
deriving Repr, DecidableEq

/-- Row of table `maestros` (app/models/maestro.py). -/
structure Maestro where
  id_maestro : Nat
  id_persona : Nat
  telefono : Option String
  direccion : Option String
deriving Repr, DecidableEq

/-- Row of table `alumnos` (app/models/alumno.py).  The `dias` JSONB blob is
kept opaque.  `id_estado_actual` is Option because the estados route guards
against it being NULL. -/
structure Alumno where
  id_alumno : Nat
  id_persona : Nat
  dias : Option String
  franja_horaria : Option String
  motivo_oracion : Option String
  id_estado_actual : Option Nat
  created_at : Nat
deriving Repr, DecidableEq

/-- Row of table `tarjetas` (app/models/tarjeta.py): the assignment card
binding a student to a teacher, with a denormalized current-status pointer. -/
structure Tarjeta where
  id_tarjeta : Nat
  id_alumno : Nat
  id_estado_actual : Nat
  id_maestro_asignado : Option Nat
  created_at : Nat
deriving Repr, DecidableEq

/-- Row of table `estados` (app/models/estado.py). -/
structure Estado where
  id_estado : Nat
  nombre : String
  orden : Int
  activo : Bool
  id_bolsa : Option Nat
deriving Repr, DecidableEq

/-- Row of table `bolsas` (app/models/bolsa.py). -/
structure Bolsa where
  id_bolsa : Nat
  nombre : String
  descripcion : Option String
  activo : Bool
deriving Repr, DecidableEq

/-- Row of table `historial_estados` (app/models/historial_estado.py). -/
structure HistorialEstado where
  id_historial : Nat
  id_alumno : Nat
  id_estado : Nat
  comentario : Option String
  fecha_cambio : Nat
  cambiado_por : Option Nat
deriving Repr, DecidableEq

/-- Row of table `observaciones` (app/models/observacion.py). -/
structure Observacion where
  id_observacion : Nat
  id_alumno : Nat
  id_autor : Nat
  texto : String
  created_at : Nat
deriving Repr, DecidableEq

/-- The relational store: one list of rows per table. -/
structure DB where
  personas : List Persona
  perfiles : List Profile
  person_roles : List PersonRole
  maestros : List Maestro
  alumnos : List Alumno
  tarjetas : List Tarjeta
  estados : List Estado
  bolsas : List Bolsa
  historial : List HistorialEstado
  observaciones : List Observacion
deriving Repr, DecidableEq

/-- HTTP error taxonomy used by the routes (mapped from the raised
HTTPException status codes). -/
inductive ApiError where
  | notFound (detail : String)
  | forbidden (detail : String)
  | badRequest (detail : String)
  | unprocessable (detail : String)
  | internalError (detail : String)
deriving Repr, DecidableEq

/-- Boolean success test on an endpoint result (HTTP 2xx). -/
def okB {α : Type} : Except ApiError α → Bool
  | .ok _ => true
  | .error _ => false

/-- Role ids held by a person, as computed by the routes:
`[pr.id_rol for pr in query(PersonRole).filter(person_id == pid).all()]`. -/
def rolesOf (db : DB) (pid : Nat) : List Nat :=
  (db.person_roles.filter (fun pr => pr.person_id == pid)).map (fun pr => pr.id_rol)

/-- Nested `cambiado_por` / `autor` object of the responses. -/
structure HistorialInfo where
  id_historial : Nat
  fecha_cambio : Nat
  comentario : Option String
  cambiado_por : Nat
deriving Repr, DecidableEq

/-- Response body of PATCH /alumnos/{id}/estado (routes/alumnos.py,
cambiar_estado_alumno, step 12). -/
structure CambiarEstadoResp where
  id_alumno : Nat
  estado_anterior : Option Nat
  estado_nuevo : Nat
  estado_nombre : String
  historial : HistorialInfo
deriving Repr, DecidableEq

/-- Ownership check of PATCH /alumnos/{id}/estado (step 6 of
cambiar_estado_alumno): a non-admin caller must have a Maestro record and a
tarjeta binding the target alumno to that maestro. -/
def permiso_modificar_alumno (db : DB) (persona : Persona) (es_admin : Bool)
    (alumno : Alumno) : Except ApiError Unit :=
  if es_admin then .ok () else
    match db.maestros.find? (fun m => m.id_persona == persona.id_persona) with
    | none => .error (.forbidden "Solo maestros pueden modificar alumnos")
    | some maestro =>
      match db.tarjetas.find? (fun t =>
          t.id_alumno == alumno.id_alumno &&
          t.id_maestro_asignado == some maestro.id_maestro) with
      | none => .error (.forbidden "No tienes permiso para modificar este alumno")
      | some _ => .ok ()

/-- PATCH /alumnos/{id_alumno}/estado (routes/alumnos.py, cambiar_estado_alumno).
Changes a student's status and appends a history entry.  `freshHistorialId` and
`now` stand for the uuid4 primary key and the server_default timestamp of the
new HistorialEstado row. -/
def cambiar_estado_alumno (db : DB) (idAlumno : Nat) (idEstado : Nat)
    (comentario : Option String) (authUserId : Nat)
    (freshHistorialId : Nat) (now : Nat) :
    Except ApiError CambiarEstadoResp × DB :=
  match db.personas.find? (fun p => p.auth_user_id == authUserId) with
  | none => (.error (.notFound "Persona no encontrada"), db)
  | some persona =>
  match db.perfiles.find? (fun pf => pf.id_perfil == persona.id_perfil) with
  | none => (.error (.notFound "Perfil no encontrado"), db)
  | some perfil =>
  let es_admin := perfil.nivel_acceso == 1
  let es_moderador := perfil.nivel_acceso == 2
  if !(es_admin || es_moderador) then
    (.error (.forbidden "No tienes permisos para cambiar estados de alumnos"), db)
  else
  match db.alumnos.find? (fun a => a.id_alumno == idAlumno) with
  | none => (.error (.notFound ("Alumno con id " ++ toString idAlumno ++ " no encontrado")), db)
  | some alumno =>
  match permiso_modificar_alumno db persona es_admin alumno with
  | .error e => (.error e, db)
  | .ok _ =>
  match db.estados.find? (fun e => e.id_estado == idEstado) with
  | none => (.error (.notFound ("Estado con id " ++ toString idEstado ++ " no encontrado")), db)
  | some estado =>
  if !estado.activo then
    (.error (.badRequest ("El estado '" ++ estado.nombre ++ "' no está activo")), db)
  else
    let estado_anterior := alumno.id_estado_actual
    let nuevo_historial : HistorialEstado :=
      { id_historial := freshHistorialId
        id_alumno := alumno.id_alumno
        id_estado := idEstado
        comentario := comentario
        fecha_cambio := now
        cambiado_por := some persona.id_persona }
    let db' : DB :=
      { db with
        alumnos := db.alumnos.map (fun a =>
          if a.id_alumno == idAlumno then { a with id_estado_actual := some idEstado } else a)
        historial := db.historial ++ [nuevo_historial] }
    (.ok { id_alumno := alumno.id_alumno
           estado_anterior := estado_anterior
           estado_nuevo := idEstado
           estado_nombre := estado.nombre
           historial := { id_historial := freshHistorialId
                          fecha_cambio := now
                          comentario := comentario
                          cambiado_por := persona.id_persona } }, db')

/-- Nested `maestro_asignado` object of the student responses. -/
structure MaestroInfo where
  id_maestro : Nat
  nombre : Option String
  apellido : Option String
  telefono : Option String
  direccion : Option String
deriving Repr, DecidableEq

/-- Lookup of the assigned teacher and his persona for response assembly
(`query(Maestro).filter(id_maestro == tarjeta.id_maestro_asignado).first()`;
a NULL assignment matches nothing). -/
def maestro_info (db : DB) (idMaestro : Option Nat) : Option MaestroInfo :=
  match idMaestro with
  | none => none
  | some mid =>
    match db.maestros.find? (fun m => m.id_maestro == mid) with
    | none => none
    | some m =>
      let persona_maestro := db.personas.find? (fun p => p.id_persona == m.id_persona)
      some { id_maestro := m.id_maestro
             nombre := persona_maestro.map (fun p => p.nombre)
             apellido := persona_maestro.map (fun p => p.apellido)
             telefono := m.telefono
             direccion := m.direccion }

/-- Student object serialized by GET /alumnos (per-tarjeta loop) and by
GET /alumnos/{id}; both build exactly these fields. -/
structure AlumnoItem where
  id_alumno : Nat
  id_tarjeta : Nat
  nombre : String
  apellido : String
  email : Option String
  foto_url : Option String
  dias : Option String
  franja_horaria : Option String
  motivo_oracion : Option String
  created_at : Nat
  maestro_asignado : Option MaestroInfo
deriving Repr, DecidableEq

/-- JSON keys of the GET /alumnos/{id} response dict, transcribed from
routes/alumnos.py lines 492-510.  The response carries no status field. -/
def get_alumno_by_id_response_keys : List String :=
  ["id_alumno", "id_tarjeta", "nombre", "apellido", "email", "foto_url",
   "dias", "franja_horaria", "motivo_oracion", "created_at", "maestro_asignado"]

/-- Ownership check of GET /alumnos/{id} (step 6 of get_alumno_by_id): a
caller who is maestro and not pastor must be the teacher the tarjeta points
to. -/
def permiso_ver_alumno (db : DB) (persona : Persona) (es_pastor es_maestro : Bool)
    (tarjeta : Tarjeta) : Except ApiError Unit :=
  if es_maestro && !es_pastor then
    match db.maestros.find? (fun m => m.id_persona == persona.id_persona) with
    | none => .error (.forbidden "Usuario no tiene registro de maestro en el sistema")
    | some maestro =>
      if tarjeta.id_maestro_asignado != some maestro.id_maestro then
        .error (.forbidden "No tienes permiso para ver este alumno")
      else .ok ()
  else .ok ()

/-- GET /alumnos/{id_alumno} (routes/alumnos.py, get_alumno_by_id).
Note: this route checks only the pastor/maestro roles; it never consults the
caller's profile. -/
def get_alumno_by_id (db : DB) (idAlumno : Nat) (authUserId : Nat) :
    Except ApiError AlumnoItem :=
  match db.personas.find? (fun p => p.auth_user_id == authUserId) with
  | none => .error (.notFound "Persona no encontrada")
  | some persona =>
  let roles := rolesOf db persona.id_persona
  let es_pastor := roles.contains 1
  let es_maestro := roles.contains 2
  if !es_pastor && !es_maestro then
    .error (.forbidden "No tienes permisos para acceder")
  else
  match db.alumnos.find? (fun a => a.id_alumno == idAlumno) with
  | none => .error (.notFound ("Alumno con id " ++ toString idAlumno ++ " no encontrado"))
  | some alumno =>
  match db.tarjetas.find? (fun t => t.id_alumno == idAlumno) with
  | none => .error (.notFound "No se encontró información de asignación para este alumno")
  | some tarjeta =>
  match permiso_ver_alumno db persona es_pastor es_maestro tarjeta with
  | .error e => .error e
  | .ok _ =>
  match db.personas.find? (fun p => p.id_persona == alumno.id_persona) with
  | none => .error (.notFound "No se encontró información personal del alumno")
  | some persona_alumno =>
    .ok { id_alumno := alumno.id_alumno
          id_tarjeta := tarjeta.id_tarjeta
          nombre := persona_alumno.nombre
          apellido := persona_alumno.apellido
          email := persona_alumno.email
          foto_url := persona_alumno.foto_url
          dias := alumno.dias
          franja_horaria := alumno.franja_horaria
          motivo_oracion := alumno.motivo_oracion
          created_at := alumno.created_at
          maestro_asignado := maestro_info db tarjeta.id_maestro_asignado }

/-- The `usuario` block of the GET /alumnos response. -/
structure UsuarioInfo where
  es_admin : Bool
  es_pastor : Bool
  es_maestro : Bool
  filtro_maestro : Option Nat
deriving Repr, DecidableEq

/-- Response body of GET /alumnos. -/
structure AlumnosListResp where
  alumnos : List AlumnoItem
  total : Nat
  usuario : UsuarioInfo
deriving Repr, DecidableEq

/-- Per-tarjeta item assembly of GET /alumnos (steps 7 of get_alumnos): the
loop issues `continue` when the alumno or its persona row is missing, which is
a `filterMap` over the tarjetas. -/
def build_alumno_item (db : DB) (t : Tarjeta) : Option AlumnoItem :=
  match db.alumnos.find? (fun a => a.id_alumno == t.id_alumno) with
  | none => none
  | some alumno =>
    match db.personas.find? (fun p => p.id_persona == alumno.id_persona) with
    | none => none
    | some persona_alumno =>
      some { id_alumno := alumno.id_alumno
             id_tarjeta := t.id_tarjeta
             nombre := persona_alumno.nombre
             apellido := persona_alumno.apellido
             email := persona_alumno.email
             foto_url := persona_alumno.foto_url
             dias := alumno.dias
             franja_horaria := alumno.franja_horaria
             motivo_oracion := alumno.motivo_oracion
             created_at := alumno.created_at
             maestro_asignado := maestro_info db t.id_maestro_asignado }

/-- GET /alumnos (routes/alumnos.py, get_alumnos).  `maestroId` filters by a
teacher's persona id, honored for admin and pastor callers only. -/
def get_alumnos (db : DB) (authUserId : Nat) (maestroId : Option Nat) :
    Except ApiError AlumnosListResp :=
  match db.personas.find? (fun p => p.auth_user_id == authUserId) with
  | none => .error (.notFound "Persona no encontrada")
  | some persona =>
  match db.perfiles.find? (fun pf => pf.id_perfil == persona.id_perfil) with
  | none => .error (.notFound "Perfil no encontrado")
  | some perfil =>
  let es_admin := perfil.nivel_acceso == 1
  if es_admin then
    match maestroId with
    | some mid =>
      match db.maestros.find? (fun m => m.id_persona == mid) with
      | none => .error (.notFound ("Maestro con id_persona=" ++ toString mid ++ " no encontrado"))
      | some maestro =>
        let tarjetas := db.tarjetas.filter (fun t => t.id_maestro_asignado == some maestro.id_maestro)
        let datos := tarjetas.filterMap (build_alumno_item db)
        .ok { alumnos := datos, total := datos.length
              usuario := { es_admin := true, es_pastor := false, es_maestro := false
                           filtro_maestro := maestroId } }
    | none =>
      let datos := db.tarjetas.filterMap (build_alumno_item db)
      .ok { alumnos := datos, total := datos.length
            usuario := { es_admin := true, es_pastor := false, es_maestro := false
                         filtro_maestro := none } }
  else
    let roles := rolesOf db persona.id_persona
    let es_pastor := roles.contains 1
    let es_maestro := roles.contains 2
    if !es_pastor && !es_maestro then
      .error (.forbidden "No tienes permisos para acceder a este recurso")
    else
      let tarjetasE : Except ApiError (List Tarjeta) :=
        if es_pastor then
          match maestroId with
          | some mid =>
            match db.maestros.find? (fun m => m.id_persona == mid) with
            | none => .error (.notFound ("Maestro con id_persona=" ++ toString mid ++ " no encontrado"))
            | some maestro =>
              .ok (db.tarjetas.filter (fun t => t.id_maestro_asignado == some maestro.id_maestro))
          | none => .ok db.tarjetas
        else
          match db.maestros.find? (fun m => m.id_persona == persona.id_persona) with
          | none => .error (.forbidden "Usuario no tiene registro de maestro en el sistema")
          | some maestro =>
            .ok (db.tarjetas.filter (fun t => t.id_maestro_asignado == some maestro.id_maestro))
      match tarjetasE with
      | .error e => .error e
      | .ok tarjetas =>
        let datos := tarjetas.filterMap (build_alumno_item db)
        .ok { alumnos := datos, total := datos.length
              usuario := { es_admin := false, es_pastor := es_pastor, es_maestro := es_maestro
                           filtro_maestro := if es_pastor then maestroId else none } }

/-- Form input of POST /alumnos (after the dias JSON parse and the photo
upload, which are external input layers). -/
structure AlumnoInput where
  nombre : String
  apellido : String
  email : Option String
  foto_url : Option String
  dias : Option String
  franja_horaria : Option String
  motivo_oracion : Option String
  id_estado_actual : Nat
  id_maestro : Option Nat
deriving Repr, DecidableEq

/-- Response body of POST /alumnos (step 11 of create_alumno). -/
structure CreateAlumnoResp where
  id_alumno : Nat
  id_tarjeta : Nat
  nombre : String
  apellido : String
  email : Option String
  foto_url : Option String
  dias : Option String
  franja_horaria : Option String
  motivo_oracion : Option String
  created_at : Nat
  maestro_asignado : Option MaestroInfo
deriving Repr, DecidableEq

/-- Teacher-assignment resolution of POST /alumnos (step 4 of create_alumno):
admins and pastors must name an existing maestro; a maestro caller is
self-assigned, ignoring the supplied id. -/
def asignar_maestro (db : DB) (persona : Persona) (es_admin : Bool)
    (idMaestro : Option Nat) : Except ApiError Nat :=
  if es_admin then
    match idMaestro with
    | none => .error (.badRequest "Los administradores deben proporcionar id_maestro para asignar el alumno")
    | some mid =>
      match db.maestros.find? (fun m => m.id_maestro == mid) with
      | none => .error (.notFound ("Maestro con id " ++ toString mid ++ " no encontrado"))
      | some m => .ok m.id_maestro
  else
    let roles := rolesOf db persona.id_persona
    let es_pastor := roles.contains 1
    let es_maestro := roles.contains 2
    if !es_pastor && !es_maestro then
      .error (.forbidden "No tienes permisos para crear alumnos")
    else if es_pastor then
      match idMaestro with
      | none => .error (.badRequest "Los pastores deben proporcionar id_maestro para asignar el alumno")
      | some mid =>
        match db.maestros.find? (fun m => m.id_maestro == mid) with
        | none => .error (.notFound ("Maestro con id " ++ toString mid ++ " no encontrado"))
        | some m => .ok m.id_maestro
    else
      match db.maestros.find? (fun m => m.id_persona == persona.id_persona) with
      | none => .error (.forbidden "Usuario no tiene registro de maestro en el sistema")
      | some m => .ok m.id_maestro

/-- POST /alumnos (routes/alumnos.py, create_alumno).  Creates the persona,
the alumno and the tarjeta in one transaction.  The fresh ids stand for the
uuid4 keys generated for the new rows.  Note that the new card's denormalized
`id_estado_actual` is hard-coded to 1 at step 8, independently of the
requested initial status. -/
def create_alumno (db : DB) (input : AlumnoInput) (authUserId : Nat)
    (freshPersonaId freshAlumnoId freshTarjetaId freshAuthUserId now : Nat) :
    Except ApiError CreateAlumnoResp × DB :=
  match db.personas.find? (fun p => p.auth_user_id == authUserId) with
  | none => (.error (.notFound "Persona no encontrada"), db)
  | some persona =>
  match db.perfiles.find? (fun pf => pf.id_perfil == persona.id_perfil) with
  | none => (.error (.notFound "Perfil no encontrado"), db)
  | some perfil =>
  let es_admin := perfil.nivel_acceso == 1
  match db.estados.find? (fun e => e.id_estado == input.id_estado_actual) with
  | none =>
    (.error (.notFound ("Estado con id " ++ toString input.id_estado_actual ++ " no encontrado")), db)
  | some estado =>
  if !estado.activo then
    (.error (.badRequest ("El estado con id " ++ toString input.id_estado_actual ++ " no está activo")), db)
  else
  match asignar_maestro db persona es_admin input.id_maestro with
  | .error e => (.error e, db)
  | .ok idMaestroAsignado =>
    let nueva_persona : Persona :=
      { id_persona := freshPersonaId
        auth_user_id := freshAuthUserId
        nombre := input.nombre
        apellido := input.apellido
        email := input.email
        foto_url := input.foto_url
        id_perfil := 3 }
    let nuevo_alumno : Alumno :=
      { id_alumno := freshAlumnoId
        id_persona := freshPersonaId
        dias := input.dias
        franja_horaria := input.franja_horaria
        motivo_oracion := input.motivo_oracion
        id_estado_actual := some input.id_estado_actual
        created_at := now }
    let nueva_tarjeta : Tarjeta :=
      { id_tarjeta := freshTarjetaId
        id_alumno := freshAlumnoId
        id_estado_actual := 1
        id_maestro_asignado := some idMaestroAsignado
        created_at := now }
    let db' : DB :=
      { db with
        personas := db.personas ++ [nueva_persona]
        alumnos := db.alumnos ++ [nuevo_alumno]
        tarjetas := db.tarjetas ++ [nueva_tarjeta] }
    (.ok { id_alumno := freshAlumnoId
           id_tarjeta := freshTarjetaId
           nombre := nueva_persona.nombre
           apellido := nueva_persona.apellido
           email := nueva_persona.email
           foto_url := nueva_persona.foto_url
           dias := nuevo_alumno.dias
           franja_horaria := nuevo_alumno.franja_horaria
           motivo_oracion := nuevo_alumno.motivo_oracion
           created_at := nuevo_alumno.created_at
           maestro_asignado := maestro_info db' (some idMaestroAsignado) }, db')

/-- Nested `bolsa` object of the available-statuses response. -/
structure BolsaInfo where
  id_bolsa : Nat
  nombre : String
  descripcion : Option String
deriving Repr, DecidableEq

/-- One entry of `estados_disponibles`. -/
structure EstadoItem where
  id_estado : Nat
  nombre : String
  orden : Int
  es_estado_actual : Bool
deriving Repr, DecidableEq

/-- Response body of GET /alumnos/{id}/estados. -/
structure EstadosDisponiblesResp where
  id_alumno : Nat
  id_estado_actual : Nat
  nombre_estado_actual : String
  bolsa : Option BolsaInfo
  estados_disponibles : List EstadoItem
deriving Repr, DecidableEq

/-- Ordering relation modelling `order_by(Estado.orden)`; the query result is
modelled as a stable sort by this relation. -/
def ordenRel : Estado → Estado → Prop := fun a b => a.orden ≤ b.orden

instance : DecidableRel ordenRel :=
  fun a b => inferInstanceAs (Decidable (a.orden ≤ b.orden))

instance : IsTotal Estado ordenRel := ⟨fun a b => Int.le_total a.orden b.orden⟩

instance : IsTrans Estado ordenRel := ⟨fun _ _ _ hab hbc => le_trans hab hbc⟩

/-- GET /alumnos/{id_alumno}/estados (routes/alumnos.py,
get_estados_disponibles_alumno).  If the student's current status belongs to a
bolsa, all active statuses of that bolsa are returned ordered by `orden`;
otherwise only the current status is returned. -/
def get_estados_disponibles_alumno (db : DB) (idAlumno : Nat) (authUserId : Nat) :
    Except ApiError EstadosDisponiblesResp :=
  match db.personas.find? (fun p => p.auth_user_id == authUserId) with
  | none => .error (.notFound "Persona no encontrada")
  | some _ =>
  match db.alumnos.find? (fun a => a.id_alumno == idAlumno) with
  | none => .error (.notFound "Alumno no encontrado")
  | some alumno =>
  match alumno.id_estado_actual with
  | none => .error (.badRequest "El alumno no tiene un estado actual asignado")
  | some idEstadoActual =>
  match db.estados.find? (fun e => e.id_estado == idEstadoActual) with
  | none => .error (.notFound "El estado actual del alumno no existe en la tabla de estados")
  | some estado_actual =>
  match estado_actual.id_bolsa with
  | some idBolsa =>
    let bolsa := db.bolsas.find? (fun b => b.id_bolsa == idBolsa)
    let estados :=
      (db.estados.filter (fun e => e.id_bolsa == some idBolsa && e.activo)).insertionSort ordenRel
    .ok { id_alumno := alumno.id_alumno
          id_estado_actual := estado_actual.id_estado
          nombre_estado_actual := estado_actual.nombre
          bolsa := bolsa.map (fun b =>
            { id_bolsa := b.id_bolsa, nombre := b.nombre, descripcion := b.descripcion })
          estados_disponibles := estados.map (fun e =>
            { id_estado := e.id_estado
              nombre := e.nombre
              orden := e.orden
              es_estado_actual := e.id_estado == estado_actual.id_estado }) }
  | none =>
    .ok { id_alumno := alumno.id_alumno
          id_estado_actual := estado_actual.id_estado
          nombre_estado_actual := estado_actual.nombre
          bolsa := none
          estados_disponibles :=
            [{ id_estado := estado_actual.id_estado
               nombre := estado_actual.nombre
               orden := estado_actual.orden
               es_estado_actual := true }] }

/-- One event of the global activity feed.  The code emits two dict shapes
(`cambio_estado` rows carry estado_nombre and comentario, `observacion` rows
carry texto); the unused fields are none. -/
structure EventoGlobal where
  tipo : String
  fecha : Nat
  id_referencia : Nat
  id_alumno : Nat
  alumno_nombre : Option String
  alumno_apellido : Option String
  estado_nombre : Option String
  comentario : Option String
  texto : Option String
  autor_id_persona : Option Nat
  autor_nombre : Option String
  autor_apellido : Option String
deriving Repr, DecidableEq

/-- Response body of GET /actividad. -/
structure ActividadResp where
  total : Nat
  actividad : List EventoGlobal
deriving Repr, DecidableEq

/-- Ordering relation modelling `eventos.sort(key=fecha, reverse=True)`:
stable descending order by timestamp. -/
def fechaDescRel : EventoGlobal → EventoGlobal → Prop := fun a b => b.fecha ≤ a.fecha

instance : DecidableRel fechaDescRel :=
  fun a b => inferInstanceAs (Decidable (b.fecha ≤ a.fecha))

instance : IsTotal EventoGlobal fechaDescRel := ⟨fun a b => Nat.le_total b.fecha a.fecha⟩

instance : IsTrans EventoGlobal fechaDescRel := ⟨fun _ _ _ hab hbc => le_trans hbc hab⟩

/-- Visible-student computation of GET /actividad (step 3): admins and
pastors see every alumno; a maestro sees the alumnos of his tarjetas. -/
def actividad_alumnos_ids (db : DB) (persona : Persona) (es_admin : Bool) :
    Except ApiError (List Nat) :=
  if es_admin then .ok (db.alumnos.map (fun a => a.id_alumno))
  else
    let roles := rolesOf db persona.id_persona
    let es_pastor := roles.contains 1
    let es_maestro := roles.contains 2
    if !es_pastor && !es_maestro then
      .error (.forbidden "No tienes permisos para ver la actividad")
    else if es_pastor then .ok (db.alumnos.map (fun a => a.id_alumno))
    else
      match db.maestros.find? (fun m => m.id_persona == persona.id_persona) with
      | none => .error (.forbidden "Usuario no tiene registro de maestro en el sistema")
      | some maestro =>
        .ok ((db.tarjetas.filter (fun t => t.id_maestro_asignado == some maestro.id_maestro)).map
          (fun t => t.id_alumno))

/-- Event built from a HistorialEstado row (step 4a of get_actividad_global). -/
def evento_de_historial (db : DB) (reg : HistorialEstado) : EventoGlobal :=
  let alumno_obj := db.alumnos.find? (fun a => a.id_alumno == reg.id_alumno)
  let persona_alumno := alumno_obj.bind (fun a =>
    db.personas.find? (fun p => p.id_persona == a.id_persona))
  let estado_obj := db.estados.find? (fun e => e.id_estado == reg.id_estado)
  let autor_obj := reg.cambiado_por.bind (fun cp =>
    db.personas.find? (fun p => p.id_persona == cp))
  { tipo := "cambio_estado"
    fecha := reg.fecha_cambio
    id_referencia := reg.id_historial
    id_alumno := reg.id_alumno
    alumno_nombre := persona_alumno.map (fun p => p.nombre)
    alumno_apellido := persona_alumno.map (fun p => p.apellido)
    estado_nombre := estado_obj.map (fun e => e.nombre)
    comentario := reg.comentario
    texto := none
    autor_id_persona := autor_obj.map (fun p => p.id_persona)
    autor_nombre := autor_obj.map (fun p => p.nombre)
    autor_apellido := autor_obj.map (fun p => p.apellido) }

/-- Event built from an Observacion row (step 4b of get_actividad_global). -/
def evento_de_observacion (db : DB) (obs : Observacion) : EventoGlobal :=
  let alumno_obj := db.alumnos.find? (fun a => a.id_alumno == obs.id_alumno)
  let persona_alumno := alumno_obj.bind (fun a =>
    db.personas.find? (fun p => p.id_persona == a.id_persona))
  let autor_obj := db.personas.find? (fun p => p.id_persona == obs.id_autor)
  { tipo := "observacion"
    fecha := obs.created_at
    id_referencia := obs.id_observacion
    id_alumno := obs.id_alumno
    alumno_nombre := persona_alumno.map (fun p => p.nombre)
    alumno_apellido := persona_alumno.map (fun p => p.apellido)
    estado_nombre := none
    comentario := none
    texto := some obs.texto
    autor_id_persona := some obs.id_autor
    autor_nombre := autor_obj.map (fun p => p.nombre)
    autor_apellido := autor_obj.map (fun p => p.apellido) }

/-- GET /actividad (routes/actividad.py, get_actividad_global).  The initial
range guard models the FastAPI parameter validation
`limite: int = Query(50, ge=1, le=200)`, which rejects the request with 422
before the handler runs. -/
def get_actividad_global (db : DB) (authUserId : Nat) (limite : Nat)
    (tipo : Option String) : Except ApiError ActividadResp :=
  if limite < 1 || 200 < limite then
    .error (.unprocessable "limite fuera de rango")
  else
  match db.personas.find? (fun p => p.auth_user_id == authUserId) with
  | none => .error (.notFound "Persona no encontrada")
  | some persona =>
  match db.perfiles.find? (fun pf => pf.id_perfil == persona.id_perfil) with
  | none => .error (.notFound "Perfil no encontrado")
  | some perfil =>
  let es_admin := perfil.nivel_acceso == 1
  match actividad_alumnos_ids db persona es_admin with
  | .error e => .error e
  | .ok alumnos_ids =>
  if alumnos_ids.isEmpty then .ok { total := 0, actividad := [] }
  else
    let eventos_estado :=
      if tipo == none || tipo == some "cambio_estado" then
        (db.historial.filter (fun h => alumnos_ids.contains h.id_alumno)).map
          (evento_de_historial db)
      else []
    let eventos_obs :=
      if tipo == none || tipo == some "observacion" then
        (db.observaciones.filter (fun o => alumnos_ids.contains o.id_alumno)).map
          (evento_de_observacion db)
      else []
    let eventos := ((eventos_estado ++ eventos_obs).insertionSort fechaDescRel).take limite
    .ok { total := eventos.length, actividad := eventos }

/-!
Concrete database used by the witnesses and counterexamples.

Perfiles: 1 = admin, 2 = moderador, 3 = usuario.
Personas: 1 admin (auth 100, no roles), 2 maestro (auth 200, role 2, perfil
moderador), 3 pastor (auth 300, role 1), 4/6 alumno personas, 5 second
maestro (auth 500, role 2).
Maestros: 11 (persona 2), 12 (persona 5).
Alumnos: 10 (persona 4, estado 5, assigned to maestro 11 by tarjeta 21),
13 (persona 6, estado 8 — inactive and in bolsa 7, assigned to maestro 12
by tarjeta 22).
Estados: 1 active no bolsa; 5, 6 active in bolsa 7; 8 inactive in bolsa 7.
-/

/-- Example database for concrete evaluation. -/
def exDB : DB :=
  { personas :=
      [ { id_persona := 1, auth_user_id := 100, nombre := "Ana", apellido := "Admin"
          email := none, foto_url := none, id_perfil := 1 }
      , { id_persona := 2, auth_user_id := 200, nombre := "Mario", apellido := "Maestro"
          email := none, foto_url := none, id_perfil := 2 }
      , { id_persona := 3, auth_user_id := 300, nombre := "Pedro", apellido := "Pastor"
          email := none, foto_url := none, id_perfil := 3 }
      , { id_persona := 4, auth_user_id := 400, nombre := "Alba", apellido := "Alumna"
          email := none, foto_url := none, id_perfil := 3 }
      , { id_persona := 5, auth_user_id := 500, nombre := "Omar", apellido := "Otro"
          email := none, foto_url := none, id_perfil := 2 }
      , { id_persona := 6, auth_user_id := 600, nombre := "Beto", apellido := "Alumno"
          email := none, foto_url := none, id_perfil := 3 } ]
    perfiles :=
      [ { id_perfil := 1, descripcion := "Administrador", nivel_acceso := 1 }
      , { id_perfil := 2, descripcion := "Moderador", nivel_acceso := 2 }
      , { id_perfil := 3, descripcion := "Usuario", nivel_acceso := 3 } ]
    person_roles :=
      [ { person_id := 2, id_rol := 2 }
      , { person_id := 3, id_rol := 1 }
      , { person_id := 5, id_rol := 2 } ]
    maestros :=
      [ { id_maestro := 11, id_persona := 2, telefono := none, direccion := none }
      , { id_maestro := 12, id_persona := 5, telefono := none, direccion := none } ]
    alumnos :=
      [ { id_alumno := 10, id_persona := 4, dias := none, franja_horaria := none
          motivo_oracion := none, id_estado_actual := some 5, created_at := 1 }
      , { id_alumno := 13, id_persona := 6, dias := none, franja_horaria := none
          motivo_oracion := none, id_estado_actual := some 8, created_at := 2 } ]
    tarjetas :=
      [ { id_tarjeta := 21, id_alumno := 10, id_estado_actual := 1
          id_maestro_asignado := some 11, created_at := 1 }
      , { id_tarjeta := 22, id_alumno := 13, id_estado_actual := 1
          id_maestro_asignado := some 12, created_at := 2 } ]
    estados :=
      [ { id_estado := 1, nombre := "Activo", orden := 1, activo := true, id_bolsa := none }
      , { id_estado := 5, nombre := "Seguimiento", orden := 2, activo := true, id_bolsa := some 7 }
      , { id_estado := 6, nombre := "Avanzado", orden := 3, activo := true, id_bolsa := some 7 }
      , { id_estado := 8, nombre := "Cerrado", orden := 4, activo := false, id_bolsa := some 7 } ]
    bolsas :=
      [ { id_bolsa := 7, nombre := "Bolsa2024", descripcion := none, activo := true } ]
    historial :=
      [ { id_historial := 41, id_alumno := 10, id_estado := 5, comentario := none
          fecha_cambio := 3, cambiado_por := some 2 } ]
    observaciones :=
      [ { id_observacion := 31, id_alumno := 10, id_autor := 2, texto := "va bien"
          created_at := 5 } ] }

/-- C4: for every caller whose profile access level is neither 1 (admin) nor
2 (moderator), PATCH /alumnos/{id}/estado returns Forbidden and produces no
side effects: the returned database is exactly the input database, so neither
the student's status nor the history changes. -/
theorem c4_cambiar_estado_forbidden_sin_nivel
    (db : DB) (idAlumno idEstado : Nat) (comentario : Option String)
    (authUserId freshHistorialId now : Nat) (persona : Persona) (perfil : Profile)
    (hp : db.personas.find? (fun p => p.auth_user_id == authUserId) = some persona)
    (hpf : db.perfiles.find? (fun pf => pf.id_perfil == persona.id_perfil) = some perfil)
    (h1 : perfil.nivel_acceso ≠ 1) (h2 : perfil.nivel_acceso ≠ 2) :
    cambiar_estado_alumno db idAlumno idEstado comentario authUserId freshHistorialId now =
      (.error (.forbidden "No tienes permisos para cambiar estados de alumnos"), db) := by
  simp [cambiar_estado_alumno, hp, hpf, h1, h2]

/-- Witness for C4: the pastor caller (auth 300) has the plain user profile
(nivel_acceso 3) and is denied with the database untouched. -/
theorem c4_cambiar_estado_forbidden_sin_nivel_witness :
    cambiar_estado_alumno exDB 10 6 none 300 42 9 =
      (.error (.forbidden "No tienes permisos para cambiar estados de alumnos"), exDB) :=
  c4_cambiar_estado_forbidden_sin_nivel exDB 10 6 none 300 42 9
    { id_persona := 3, auth_user_id := 300, nombre := "Pedro", apellido := "Pastor"
      email := none, foto_url := none, id_perfil := 3 }
    { id_perfil := 3, descripcion := "Usuario", nivel_acceso := 3 }
    (by decide) (by decide) (by decide) (by decide)

/-- C2: for every change_status call whose target status does not exist or is
inactive, the call fails and the database is returned unchanged: the student's
current status is untouched and no history entry is created. -/
theorem c2_estado_invalido_sin_efectos
    (db : DB) (idAlumno idEstado : Nat) (comentario : Option String)
    (authUserId freshHistorialId now : Nat)
    (h : (db.estados.find? (fun e => e.id_estado == idEstado)).all (fun e => !e.activo) = true) :
    (∃ err, (cambiar_estado_alumno db idAlumno idEstado comentario authUserId freshHistorialId now).1
        = .error err) ∧
    (cambiar_estado_alumno db idAlumno idEstado comentario authUserId freshHistorialId now).2 = db := by
  rcases hp : db.personas.find? (fun p => p.auth_user_id == authUserId) with _ | persona
  · simp [cambiar_estado_alumno, hp]
  rcases hpf : db.perfiles.find? (fun pf => pf.id_perfil == persona.id_perfil) with _ | perfil
  · simp [cambiar_estado_alumno, hp, hpf]
  cases hb : (perfil.nivel_acceso == 1 || perfil.nivel_acceso == 2)
  · simp [cambiar_estado_alumno, hp, hpf, hb]
  rcases ha : db.alumnos.find? (fun a => a.id_alumno == idAlumno) with _ | alumno
  · simp [cambiar_estado_alumno, hp, hpf, hb, ha]
  rcases hperm : permiso_modificar_alumno db persona (perfil.nivel_acceso == 1) alumno with e | u
  · simp [cambiar_estado_alumno, hp, hpf, hb, ha, hperm]
  rcases hest : db.estados.find? (fun e => e.id_estado == idEstado) with _ | estado
  · simp [cambiar_estado_alumno, hp, hpf, hb, ha, hperm, hest]
  · have hact : estado.activo = false := by
      rw [hest] at h
      simpa [Option.all] using h
    simp [cambiar_estado_alumno, hp, hpf, hb, ha, hperm, hest, hact]

/-- Witness for C2: status 99 does not exist, so the call on the example
database fails and returns the database unchanged. -/
theorem c2_estado_invalido_sin_efectos_witness :
    (∃ err, (cambiar_estado_alumno exDB 10 99 none 100 42 9).1 = .error err) ∧
    (cambiar_estado_alumno exDB 10 99 none 100 42 9).2 = exDB :=
  c2_estado_invalido_sin_efectos exDB 10 99 none 100 42 9 (by decide)

/-- C3: every successful change_status call appends exactly one history entry
for the target student at the end of the history table; prior entries are
preserved verbatim and the per-student history count grows by exactly one. -/
theorem c3_historial_append_only
    (db : DB) (idAlumno idEstado : Nat) (comentario : Option String)
    (authUserId freshHistorialId now : Nat)
    (hok : okB (cambiar_estado_alumno db idAlumno idEstado comentario authUserId
        freshHistorialId now).1 = true) :
    ∃ entry : HistorialEstado,
      (cambiar_estado_alumno db idAlumno idEstado comentario authUserId
          freshHistorialId now).2.historial = db.historial ++ [entry] ∧
      entry.id_alumno = idAlumno ∧ entry.id_estado = idEstado ∧
      ((cambiar_estado_alumno db idAlumno idEstado comentario authUserId
            freshHistorialId now).2.historial.filter
          (fun h => h.id_alumno == idAlumno)).length
        = (db.historial.filter (fun h => h.id_alumno == idAlumno)).length + 1 := by
  rcases hp : db.personas.find? (fun p => p.auth_user_id == authUserId) with _ | persona
  · simp [cambiar_estado_alumno, hp, okB] at hok
  rcases hpf : db.perfiles.find? (fun pf => pf.id_perfil == persona.id_perfil) with _ | perfil
  · simp [cambiar_estado_alumno, hp, hpf, okB] at hok
  cases hb : (perfil.nivel_acceso == 1 || perfil.nivel_acceso == 2)
  · simp [cambiar_estado_alumno, hp, hpf, hb, okB] at hok
  rcases ha : db.alumnos.find? (fun a => a.id_alumno == idAlumno) with _ | alumno
  · simp [cambiar_estado_alumno, hp, hpf, hb, ha, okB] at hok
  rcases hperm : permiso_modificar_alumno db persona (perfil.nivel_acceso == 1) alumno with e | u
  · simp [cambiar_estado_alumno, hp, hpf, hb, ha, hperm, okB] at hok
  rcases hest : db.estados.find? (fun e => e.id_estado == idEstado) with _ | estado
  · simp [cambiar_estado_alumno, hp, hpf, hb, ha, hperm, hest, okB] at hok
  cases hact : estado.activo
  · simp [cambiar_estado_alumno, hp, hpf, hb, ha, hperm, hest, hact, okB] at hok
  have hid : alumno.id_alumno = idAlumno := by
    have := List.find?_some ha
    simpa using this
  refine ⟨{ id_historial := freshHistorialId, id_alumno := alumno.id_alumno
            id_estado := idEstado, comentario := comentario
            fecha_cambio := now, cambiado_por := some persona.id_persona }, ?_, ?_, rfl, ?_⟩
  · simp [cambiar_estado_alumno, hp, hpf, hb, ha, hperm, hest, hact]
  · exact hid
  · simp [cambiar_estado_alumno, hp, hpf, hb, ha, hperm, hest, hact,
      List.filter_append, hid]

/-- Witness for C3: the moderator teacher (auth 200) moves alumno 10 to
status 6; the history gains exactly the new entry. -/
theorem c3_historial_append_only_witness :
    ∃ entry : HistorialEstado,
      (cambiar_estado_alumno exDB 10 6 (some "ok") 200 42 9).2.historial
        = exDB.historial ++ [entry] ∧
      entry.id_alumno = 10 ∧ entry.id_estado = 6 ∧
      ((cambiar_estado_alumno exDB 10 6 (some "ok") 200 42 9).2.historial.filter
          (fun h => h.id_alumno == 10)).length
        = (exDB.historial.filter (fun h => h.id_alumno == 10)).length + 1 :=
  c3_historial_append_only exDB 10 6 (some "ok") 200 42 9 (by decide)

/-- C6: a successful change_status call updates only the Student row's
current-status field: every other table — in particular the tarjetas table
with its denormalized current-status copy — is unchanged, and the alumnos
table changes only at the target student's id_estado_actual. -/
theorem c6_cambiar_estado_frame
    (db : DB) (idAlumno idEstado : Nat) (comentario : Option String)
    (authUserId freshHistorialId now : Nat)
    (hok : okB (cambiar_estado_alumno db idAlumno idEstado comentario authUserId
        freshHistorialId now).1 = true) :
    (cambiar_estado_alumno db idAlumno idEstado comentario authUserId
        freshHistorialId now).2.tarjetas = db.tarjetas ∧
    (cambiar_estado_alumno db idAlumno idEstado comentario authUserId
        freshHistorialId now).2.personas = db.personas ∧
    (cambiar_estado_alumno db idAlumno idEstado comentario authUserId
        freshHistorialId now).2.perfiles = db.perfiles ∧
    (cambiar_estado_alumno db idAlumno idEstado comentario authUserId
        freshHistorialId now).2.person_roles = db.person_roles ∧
    (cambiar_estado_alumno db idAlumno idEstado comentario authUserId
        freshHistorialId now).2.maestros = db.maestros ∧
    (cambiar_estado_alumno db idAlumno idEstado comentario authUserId
        freshHistorialId now).2.estados = db.estados ∧
    (cambiar_estado_alumno db idAlumno idEstado comentario authUserId
        freshHistorialId now).2.bolsas = db.bolsas ∧
    (cambiar_estado_alumno db idAlumno idEstado comentario authUserId
        freshHistorialId now).2.observaciones = db.observaciones ∧
    (cambiar_estado_alumno db idAlumno idEstado comentario authUserId
        freshHistorialId now).2.alumnos
      = db.alumnos.map (fun a =>
          if a.id_alumno == idAlumno then { a with id_estado_actual := some idEstado } else a) := by
  rcases hp : db.personas.find? (fun p => p.auth_user_id == authUserId) with _ | persona
  · simp [cambiar_estado_alumno, hp, okB] at hok
  rcases hpf : db.perfiles.find? (fun pf => pf.id_perfil == persona.id_perfil) with _ | perfil
  · simp [cambiar_estado_alumno, hp, hpf, okB] at hok
  cases hb : (perfil.nivel_acceso == 1 || perfil.nivel_acceso == 2)
  · simp [cambiar_estado_alumno, hp, hpf, hb, okB] at hok
  rcases ha : db.alumnos.find? (fun a => a.id_alumno == idAlumno) with _ | alumno
  · simp [cambiar_estado_alumno, hp, hpf, hb, ha, okB] at hok
  rcases hperm : permiso_modificar_alumno db persona (perfil.nivel_acceso == 1) alumno with e | u
  · simp [cambiar_estado_alumno, hp, hpf, hb, ha, hperm, okB] at hok
  rcases hest : db.estados.find? (fun e => e.id_estado == idEstado) with _ | estado
  · simp [cambiar_estado_alumno, hp, hpf, hb, ha, hperm, hest, okB] at hok
  cases hact : estado.activo
  · simp [cambiar_estado_alumno, hp, hpf, hb, ha, hperm, hest, hact, okB] at hok
  simp [cambiar_estado_alumno, hp, hpf, hb, ha, hperm, hest, hact]

/-- Witness for C6: on the concrete success the tarjetas table keeps its
creation-time status copy and only alumno 10's status moves to 6. -/
theorem c6_cambiar_estado_frame_witness :
    (cambiar_estado_alumno exDB 10 6 (some "ok") 200 43 9).2.tarjetas = exDB.tarjetas ∧
    (cambiar_estado_alumno exDB 10 6 (some "ok") 200 43 9).2.personas = exDB.personas ∧
    (cambiar_estado_alumno exDB 10 6 (some "ok") 200 43 9).2.perfiles = exDB.perfiles ∧
    (cambiar_estado_alumno exDB 10 6 (some "ok") 200 43 9).2.person_roles = exDB.person_roles ∧
    (cambiar_estado_alumno exDB 10 6 (some "ok") 200 43 9).2.maestros = exDB.maestros ∧
    (cambiar_estado_alumno exDB 10 6 (some "ok") 200 43 9).2.estados = exDB.estados ∧
    (cambiar_estado_alumno exDB 10 6 (some "ok") 200 43 9).2.bolsas = exDB.bolsas ∧
    (cambiar_estado_alumno exDB 10 6 (some "ok") 200 43 9).2.observaciones = exDB.observaciones ∧
    (cambiar_estado_alumno exDB 10 6 (some "ok") 200 43 9).2.alumnos
      = exDB.alumnos.map (fun a =>
          if a.id_alumno == 10 then { a with id_estado_actual := some 6 } else a) :=
  c6_cambiar_estado_frame exDB 10 6 (some "ok") 200 43 9 (by decide)

/-- C10: every successful POST /alumnos appends one tarjeta whose denormalized
current-status field is the constant 1, regardless of the requested initial
status, while the new alumno row stores the caller-supplied status. -/
theorem c10_tarjeta_estado_constante
    (db : DB) (input : AlumnoInput) (authUserId fp fa ft fau now : Nat)
    (hok : okB (create_alumno db input authUserId fp fa ft fau now).1 = true) :
    ∃ t : Tarjeta, (create_alumno db input authUserId fp fa ft fau now).2.tarjetas
        = db.tarjetas ++ [t] ∧
      t.id_estado_actual = 1 ∧ t.id_alumno = fa ∧
      ∃ a : Alumno, (create_alumno db input authUserId fp fa ft fau now).2.alumnos
          = db.alumnos ++ [a] ∧
        a.id_alumno = fa ∧ a.id_estado_actual = some input.id_estado_actual := by
  rcases hp : db.personas.find? (fun p => p.auth_user_id == authUserId) with _ | persona
  · simp [create_alumno, hp, okB] at hok
  rcases hpf : db.perfiles.find? (fun pf => pf.id_perfil == persona.id_perfil) with _ | perfil
  · simp [create_alumno, hp, hpf, okB] at hok
  rcases hest : db.estados.find? (fun e => e.id_estado == input.id_estado_actual) with _ | estado
  · simp [create_alumno, hp, hpf, hest, okB] at hok
  cases hact : estado.activo
  · simp [create_alumno, hp, hpf, hest, hact, okB] at hok
  rcases hasig : asignar_maestro db persona (perfil.nivel_acceso == 1) input.id_maestro with e | mid
  · simp [create_alumno, hp, hpf, hest, hact, hasig, okB] at hok
  refine ⟨{ id_tarjeta := ft, id_alumno := fa, id_estado_actual := 1
            id_maestro_asignado := some mid, created_at := now }, ?_, rfl, rfl,
         { id_alumno := fa, id_persona := fp, dias := input.dias
           franja_horaria := input.franja_horaria, motivo_oracion := input.motivo_oracion
           id_estado_actual := some input.id_estado_actual, created_at := now }, ?_, rfl, rfl⟩
  · simp [create_alumno, hp, hpf, hest, hact, hasig]
  · simp [create_alumno, hp, hpf, hest, hact, hasig]

/-- Witness for C10: the pastor (auth 300) creates a student with requested
initial status 5; the new tarjeta nonetheless carries status 1. -/
theorem c10_tarjeta_estado_constante_witness :
    ∃ t : Tarjeta, (create_alumno exDB
        { nombre := "N", apellido := "A", email := none, foto_url := none
          dias := none, franja_horaria := none, motivo_oracion := none
          id_estado_actual := 5, id_maestro := some 11 } 300 90 91 92 93 50).2.tarjetas
        = exDB.tarjetas ++ [t] ∧
      t.id_estado_actual = 1 ∧ t.id_alumno = 91 ∧
      ∃ a : Alumno, (create_alumno exDB
          { nombre := "N", apellido := "A", email := none, foto_url := none
            dias := none, franja_horaria := none, motivo_oracion := none
            id_estado_actual := 5, id_maestro := some 11 } 300 90 91 92 93 50).2.alumnos
          = exDB.alumnos ++ [a] ∧
        a.id_alumno = 91 ∧ a.id_estado_actual = some 5 :=
  c10_tarjeta_estado_constante exDB
    { nombre := "N", apellido := "A", email := none, foto_url := none
      dias := none, franja_horaria := none, motivo_oracion := none
      id_estado_actual := 5, id_maestro := some 11 } 300 90 91 92 93 50 (by decide)

/-- C5: for a caller holding the teacher role and not the pastor role, with a
Maestro record, on an existing student with an assignment card and persona,
GET /alumnos/{id} is Forbidden exactly when the card's assigned teacher
differs from the caller's teacher id, and succeeds when it matches. -/
theorem c5_maestro_solo_asignados
    (db : DB) (idAlumno authUserId : Nat) (persona : Persona) (alumno : Alumno)
    (tarjeta : Tarjeta) (maestro : Maestro) (pa : Persona)
    (hp : db.personas.find? (fun p => p.auth_user_id == authUserId) = some persona)
    (hr1 : (rolesOf db persona.id_persona).contains 1 = false)
    (hr2 : (rolesOf db persona.id_persona).contains 2 = true)
    (ha : db.alumnos.find? (fun a => a.id_alumno == idAlumno) = some alumno)
    (ht : db.tarjetas.find? (fun t => t.id_alumno == idAlumno) = some tarjeta)
    (hm : db.maestros.find? (fun m => m.id_persona == persona.id_persona) = some maestro)
    (hpa : db.personas.find? (fun p => p.id_persona == alumno.id_persona) = some pa) :
    (tarjeta.id_maestro_asignado ≠ some maestro.id_maestro →
      get_alumno_by_id db idAlumno authUserId
        = .error (.forbidden "No tienes permiso para ver este alumno")) ∧
    (tarjeta.id_maestro_asignado = some maestro.id_maestro →
      okB (get_alumno_by_id db idAlumno authUserId) = true) := by
  have hr1' : 1 ∉ rolesOf db persona.id_persona := by simpa using hr1
  have hr2' : 2 ∈ rolesOf db persona.id_persona := by simpa using hr2
  constructor
  · intro hne
    simp [get_alumno_by_id, hp, hr1', hr2', ha, ht, permiso_ver_alumno, hm, hne, hpa]
  · intro heq
    simp [get_alumno_by_id, hp, hr1', hr2', ha, ht, permiso_ver_alumno, hm, heq, hpa, okB]

/-- Witness for C5: the teacher caller (auth 200, maestro 11) is forbidden on
alumno 13, whose tarjeta points to maestro 12. -/
theorem c5_maestro_solo_asignados_witness :
    get_alumno_by_id exDB 13 200
      = .error (.forbidden "No tienes permiso para ver este alumno") :=
  (c5_maestro_solo_asignados exDB 13 200
    { id_persona := 2, auth_user_id := 200, nombre := "Mario", apellido := "Maestro"
      email := none, foto_url := none, id_perfil := 2 }
    { id_alumno := 13, id_persona := 6, dias := none, franja_horaria := none
      motivo_oracion := none, id_estado_actual := some 8, created_at := 2 }
    { id_tarjeta := 22, id_alumno := 13, id_estado_actual := 1
      id_maestro_asignado := some 12, created_at := 2 }
    { id_maestro := 11, id_persona := 2, telefono := none, direccion := none }
    { id_persona := 6, auth_user_id := 600, nombre := "Beto", apellido := "Alumno"
      email := none, foto_url := none, id_perfil := 3 }
    (by decide) (by decide) (by decide) (by decide) (by decide) (by decide)
    (by decide)).1 (by decide)

/-- C1 counterexample: on the example database the caller with auth id 100 is
an administrator (profile nivel_acceso 1) holding no pastor or teacher role,
yet GET /alumnos/10 rejects them with Forbidden, so admin access to student
operations is not unconditional. -/
theorem c1_counterexample :
    exDB.personas.find? (fun p => p.auth_user_id == 100)
      = some { id_persona := 1, auth_user_id := 100, nombre := "Ana", apellido := "Admin"
               email := none, foto_url := none, id_perfil := 1 } ∧
    exDB.perfiles.find? (fun pf => pf.id_perfil == 1)
      = some { id_perfil := 1, descripcion := "Administrador", nivel_acceso := 1 } ∧
    rolesOf exDB 1 = [] ∧
    get_alumno_by_id exDB 10 100
      = .error (.forbidden "No tienes permisos para acceder") :=
  ⟨by decide, by decide, by decide, rfl⟩

/-- C1 (amended): an administrator profile (nivel_acceso 1) is allowed
unconditionally on the student list GET /alumnos, but GET /alumnos/{id}
consults only the pastor/teacher roles and never the profile, so an
administrator holding neither role is Forbidden there. -/
theorem c1_admin_acceso_amended
    (db : DB) (idAlumno authUserId : Nat) (persona : Persona) (perfil : Profile)
    (hp : db.personas.find? (fun p => p.auth_user_id == authUserId) = some persona)
    (hpf : db.perfiles.find? (fun pf => pf.id_perfil == persona.id_perfil) = some perfil)
    (hn : perfil.nivel_acceso = 1) :
    okB (get_alumnos db authUserId none) = true ∧
    ((rolesOf db persona.id_persona).contains 1 = false →
     (rolesOf db persona.id_persona).contains 2 = false →
     get_alumno_by_id db idAlumno authUserId
       = .error (.forbidden "No tienes permisos para acceder")) := by
  constructor
  · simp [get_alumnos, hp, hpf, hn, okB]
  · intro h1 h2
    have h1' : 1 ∉ rolesOf db persona.id_persona := by simpa using h1
    have h2' : 2 ∉ rolesOf db persona.id_persona := by simpa using h2
    simp [get_alumno_by_id, hp, h1', h2']

/-- Witness for C1's amended statement applied to the role-less admin of the
example database. -/
theorem c1_admin_acceso_amended_witness :
    okB (get_alumnos exDB 100 none) = true ∧
    ((rolesOf exDB 1).contains 1 = false →
     (rolesOf exDB 1).contains 2 = false →
     get_alumno_by_id exDB 10 100
       = .error (.forbidden "No tienes permisos para acceder")) :=
  c1_admin_acceso_amended exDB 10 100
    { id_persona := 1, auth_user_id := 100, nombre := "Ana", apellido := "Admin"
      email := none, foto_url := none, id_perfil := 1 }
    { id_perfil := 1, descripcion := "Administrador", nivel_acceso := 1 }
    (by decide) (by decide) (by decide)

/-- C7 counterexample: alumno 13's current status is 8 (inactive, in bolsa 7),
and the available-statuses lookup returns the active statuses of the bolsa
without including the current status, so the claim's "current status included
and flagged" fails. -/
theorem c7_counterexample :
    (exDB.alumnos.find? (fun a => a.id_alumno == 13)).map (fun a => a.id_estado_actual)
      = some (some 8) ∧
    exDB.estados.find? (fun e => e.id_estado == 8)
      = some { id_estado := 8, nombre := "Cerrado", orden := 4, activo := false
               id_bolsa := some 7 } ∧
    ∃ r, get_estados_disponibles_alumno exDB 13 100 = .ok r ∧
      r.estados_disponibles ≠ [] ∧
      r.estados_disponibles.all (fun it => !(it.id_estado == 8)) = true ∧
      r.estados_disponibles.all (fun it => !it.es_estado_actual) = true := by
  refine ⟨by decide, by decide, _, rfl, by decide, by decide, by decide⟩

/-- C7 (amended): for a student whose current status row exists, the
available-statuses lookup returns: when the current status belongs to a bolsa,
exactly the active statuses of that bolsa — each item mirroring a status row
of the bolsa and flagged as current exactly when its id equals the current
status id — sorted by their order index, and the current status itself is
included whenever it is active (an inactive current status is filtered out);
when the current status has no bolsa, exactly the current status as the sole
available option. -/
theorem c7_estados_disponibles_amended
    (db : DB) (idAlumno authUserId sC : Nat) (alumno : Alumno) (cur : Estado)
    (hp : (db.personas.find? (fun p => p.auth_user_id == authUserId)).isSome = true)
    (ha : db.alumnos.find? (fun a => a.id_alumno == idAlumno) = some alumno)
    (hcur : alumno.id_estado_actual = some sC)
    (he : db.estados.find? (fun e => e.id_estado == sC) = some cur) :
    (∀ b, cur.id_bolsa = some b →
      ∃ r, get_estados_disponibles_alumno db idAlumno authUserId = .ok r ∧
        r.id_estado_actual = cur.id_estado ∧
        (∀ it ∈ r.estados_disponibles, ∃ e ∈ db.estados,
            e.id_bolsa = some b ∧ e.activo = true ∧ it.id_estado = e.id_estado ∧
            it.orden = e.orden ∧ it.es_estado_actual = (e.id_estado == cur.id_estado)) ∧
        (∀ e ∈ db.estados, e.id_bolsa = some b → e.activo = true →
          ∃ it ∈ r.estados_disponibles, it.id_estado = e.id_estado ∧
            it.es_estado_actual = (e.id_estado == cur.id_estado)) ∧
        r.estados_disponibles.Pairwise (fun x y => x.orden ≤ y.orden) ∧
        (cur.activo = true →
          ∃ it ∈ r.estados_disponibles, it.id_estado = cur.id_estado ∧
            it.es_estado_actual = true)) ∧
    (cur.id_bolsa = none →
      get_estados_disponibles_alumno db idAlumno authUserId = .ok
        { id_alumno := alumno.id_alumno
          id_estado_actual := cur.id_estado
          nombre_estado_actual := cur.nombre
          bolsa := none
          estados_disponibles := [{ id_estado := cur.id_estado, nombre := cur.nombre
                                    orden := cur.orden, es_estado_actual := true }] }) := by
  obtain ⟨pcall, hp'⟩ := Option.isSome_iff_exists.mp hp
  constructor
  · intro b hb
    have hres : get_estados_disponibles_alumno db idAlumno authUserId = .ok
        { id_alumno := alumno.id_alumno
          id_estado_actual := cur.id_estado
          nombre_estado_actual := cur.nombre
          bolsa := (db.bolsas.find? (fun bb => bb.id_bolsa == b)).map (fun bb =>
            { id_bolsa := bb.id_bolsa, nombre := bb.nombre, descripcion := bb.descripcion })
          estados_disponibles :=
            ((db.estados.filter (fun e => e.id_bolsa == some b && e.activo)).insertionSort
              ordenRel).map (fun e =>
                { id_estado := e.id_estado, nombre := e.nombre, orden := e.orden
                  es_estado_actual := e.id_estado == cur.id_estado }) } := by
      simp [get_estados_disponibles_alumno, hp', ha, hcur, he, hb]
    refine ⟨_, hres, rfl, ?_, ?_, ?_, ?_⟩
    · intro it hit
      obtain ⟨e, hmem, rfl⟩ := List.mem_map.mp hit
      rw [List.mem_insertionSort] at hmem
      obtain ⟨hmem, hcond⟩ := List.mem_filter.mp hmem
      simp only [Bool.and_eq_true, beq_iff_eq] at hcond
      exact ⟨e, hmem, hcond.1, hcond.2, rfl, rfl, rfl⟩
    · intro e hmem hb' hact
      refine ⟨_, List.mem_map.mpr ⟨e, ?_, rfl⟩, rfl, rfl⟩
      rw [List.mem_insertionSort]
      exact List.mem_filter.mpr ⟨hmem, by simp [hb', hact]⟩
    · have hs := List.sorted_insertionSort ordenRel
        (db.estados.filter (fun e => e.id_bolsa == some b && e.activo))
      rw [List.pairwise_map]
      exact hs
    · intro hact
      refine ⟨_, List.mem_map.mpr ⟨cur, ?_, rfl⟩, rfl, by simp⟩
      rw [List.mem_insertionSort]
      exact List.mem_filter.mpr ⟨List.mem_of_find?_eq_some he, by simp [hb, hact]⟩
  · intro hb
    simp [get_estados_disponibles_alumno, hp', ha, hcur, he, hb]

/-- Witness for C7's amended statement: alumno 10 currently has the active
status 5 of bolsa 7, and the lookup succeeds reporting it as current. -/
theorem c7_estados_disponibles_amended_witness :
    ∃ r, get_estados_disponibles_alumno exDB 10 100 = .ok r ∧
      r.id_estado_actual = 5 ∧
      ∃ it ∈ r.estados_disponibles, it.id_estado = 5 ∧ it.es_estado_actual = true := by
  obtain ⟨r, hr, hid, -, -, -, hcurr⟩ :=
    (c7_estados_disponibles_amended exDB 10 100 5
      { id_alumno := 10, id_persona := 4, dias := none, franja_horaria := none
        motivo_oracion := none, id_estado_actual := some 5, created_at := 1 }
      { id_estado := 5, nombre := "Seguimiento", orden := 2, activo := true
        id_bolsa := some 7 }
      (by decide) (by decide) (by decide) (by decide)).1 7 (by decide)
  exact ⟨r, hr, hid, hcurr (by decide)⟩

/-- Shared form input for the round-trip examples: requested initial status 5,
assigned to maestro 11. -/
def exInput : AlumnoInput :=
  { nombre := "Nina", apellido := "Nueva", email := none, foto_url := none
    dias := none, franja_horaria := none, motivo_oracion := none
    id_estado_actual := 5, id_maestro := some 11 }

/-- C8 counterexample: the pastor (auth 300) creates a student with initial
status 5 and fetching it immediately via GET /alumnos/{id} succeeds, but the
detail response contains no id_estado_actual key at all, so the fetch cannot
return `id_estado_actual == X`. -/
theorem c8_counterexample :
    okB (create_alumno exDB exInput 300 90 91 92 93 50).1 = true ∧
    okB (get_alumno_by_id (create_alumno exDB exInput 300 90 91 92 93 50).2 91 300) = true ∧
    ¬ ("id_estado_actual" ∈ get_alumno_by_id_response_keys) := by
  decide

/-- Projection of the status id reported by the available-statuses lookup:
some value on success, none on failure. -/
def estadoActualReportado : Except ApiError EstadosDisponiblesResp → Option Nat
  | .ok r => some r.id_estado_actual
  | .error _ => none

/-- C8 (amended): a successful POST /alumnos with initial status X stores X on
the created Student row, and an immediate GET /alumnos/{id}/estados on the new
student succeeds reporting id_estado_actual == X; the GET /alumnos/{id} detail
response itself carries no status field (see the counterexample). -/
theorem c8_round_trip_amended
    (db : DB) (input : AlumnoInput) (authUserId fp fa ft fau now fetcherAuth : Nat)
    (hok : okB (create_alumno db input authUserId fp fa ft fau now).1 = true)
    (hfresh : db.alumnos.all (fun a => !(a.id_alumno == fa)) = true)
    (hfetch : ((create_alumno db input authUserId fp fa ft fau now).2.personas.find?
        (fun p => p.auth_user_id == fetcherAuth)).isSome = true) :
    (∃ a, (create_alumno db input authUserId fp fa ft fau now).2.alumnos
        = db.alumnos ++ [a] ∧ a.id_alumno = fa ∧
        a.id_estado_actual = some input.id_estado_actual) ∧
    estadoActualReportado (get_estados_disponibles_alumno
        (create_alumno db input authUserId fp fa ft fau now).2 fa fetcherAuth)
      = some input.id_estado_actual := by
  rcases hp : db.personas.find? (fun p => p.auth_user_id == authUserId) with _ | persona
  · simp [create_alumno, hp, okB] at hok
  rcases hpf : db.perfiles.find? (fun pf => pf.id_perfil == persona.id_perfil) with _ | perfil
  · simp [create_alumno, hp, hpf, okB] at hok
  rcases hest : db.estados.find? (fun e => e.id_estado == input.id_estado_actual) with _ | estado
  · simp [create_alumno, hp, hpf, hest, okB] at hok
  cases hact : estado.activo
  · simp [create_alumno, hp, hpf, hest, hact, okB] at hok
  rcases hasig : asignar_maestro db persona (perfil.nivel_acceso == 1) input.id_maestro with e | mid
  · simp [create_alumno, hp, hpf, hest, hact, hasig, okB] at hok
  have hid : estado.id_estado = input.id_estado_actual := by
    simpa using List.find?_some hest
  have h2 : (create_alumno db input authUserId fp fa ft fau now).2 =
      { db with
        personas := db.personas ++
          [{ id_persona := fp, auth_user_id := fau, nombre := input.nombre,
             apellido := input.apellido, email := input.email,
             foto_url := input.foto_url, id_perfil := 3 }],
        alumnos := db.alumnos ++
          [{ id_alumno := fa, id_persona := fp, dias := input.dias,
             franja_horaria := input.franja_horaria,
             motivo_oracion := input.motivo_oracion,
             id_estado_actual := some input.id_estado_actual, created_at := now }],
        tarjetas := db.tarjetas ++
          [{ id_tarjeta := ft, id_alumno := fa, id_estado_actual := 1,
             id_maestro_asignado := some mid, created_at := now }] } := by
    simp [create_alumno, hp, hpf, hest, hact, hasig]
  rw [h2] at hfetch ⊢
  obtain ⟨fetcher, hf⟩ := Option.isSome_iff_exists.mp hfetch
  have hnone : db.alumnos.find? (fun a => a.id_alumno == fa) = none := by
    rw [List.find?_eq_none]
    intro x hx
    have := (List.all_eq_true.mp hfresh) x hx
    simpa using this
  refine ⟨⟨_, rfl, rfl, rfl⟩, ?_⟩
  cases hbol : estado.id_bolsa with
  | none =>
    simp [estadoActualReportado, get_estados_disponibles_alumno, hf,
      List.find?_append, hnone, hest, hbol, hid]
  | some b =>
    simp [estadoActualReportado, get_estados_disponibles_alumno, hf,
      List.find?_append, hnone, hest, hbol, hid]

/-- Witness for C8's amended statement on the concrete creation by the pastor. -/
theorem c8_round_trip_amended_witness :
    (∃ a, (create_alumno exDB exInput 300 90 91 92 93 50).2.alumnos
        = exDB.alumnos ++ [a] ∧ a.id_alumno = 91 ∧ a.id_estado_actual = some 5) ∧
    estadoActualReportado (get_estados_disponibles_alumno
        (create_alumno exDB exInput 300 90 91 92 93 50).2 91 300) = some 5 :=
  c8_round_trip_amended exDB exInput 300 90 91 92 93 50 300
    (by decide) (by decide) (by decide)

/-- C9: every successful GET /actividad response contains at most limite
events, sorted by timestamp descending, each being a status-change or
observation event of one of the caller's visible students; a limite outside
1..200 is rejected by the parameter validation. -/
theorem c9_actividad_global_bounded
    (db : DB) (authUserId limite : Nat) (tipo : Option String) :
    (∀ r, get_actividad_global db authUserId limite tipo = .ok r →
      r.actividad.length ≤ limite ∧
      r.actividad.Pairwise (fun a b => b.fecha ≤ a.fecha) ∧
      (∀ ev ∈ r.actividad, ev.tipo = "cambio_estado" ∨ ev.tipo = "observacion") ∧
      (∃ persona perfil ids,
        db.personas.find? (fun p => p.auth_user_id == authUserId) = some persona ∧
        db.perfiles.find? (fun pf => pf.id_perfil == persona.id_perfil) = some perfil ∧
        actividad_alumnos_ids db persona (perfil.nivel_acceso == 1) = .ok ids ∧
        (∀ ev ∈ r.actividad, ev.id_alumno ∈ ids) ∧
        r.actividad.length = min limite
          ((if (tipo == none || tipo == some "cambio_estado") = true then
              (db.historial.filter (fun h => ids.contains h.id_alumno)).length else 0) +
           (if (tipo == none || tipo == some "observacion") = true then
              (db.observaciones.filter (fun o => ids.contains o.id_alumno)).length else 0)))) ∧
    (limite < 1 ∨ 200 < limite →
      get_actividad_global db authUserId limite tipo
        = .error (.unprocessable "limite fuera de rango")) := by
  constructor
  · intro r hr
    by_cases h1 : limite < 1
    · simp [get_actividad_global, h1] at hr
    by_cases h2 : 200 < limite
    · simp [get_actividad_global, h2] at hr
    rcases hp : db.personas.find? (fun p => p.auth_user_id == authUserId) with _ | persona
    · simp [get_actividad_global, h1, h2, hp] at hr
    rcases hpf : db.perfiles.find? (fun pf => pf.id_perfil == persona.id_perfil) with _ | perfil
    · simp [get_actividad_global, h1, h2, hp, hpf] at hr
    rcases hids : actividad_alumnos_ids db persona (perfil.nivel_acceso == 1) with e | ids
    · simp [get_actividad_global, h1, h2, hp, hpf, hids] at hr
    cases hemp : ids.isEmpty with
    | true =>
      simp [get_actividad_global, h1, h2, hp, hpf, hids, hemp] at hr
      subst hr
      obtain rfl : ids = [] := List.isEmpty_iff.mp hemp
      refine ⟨by simp, by simp, by simp, persona, perfil, [], hp, hpf, hids, by simp, ?_⟩
      by_cases hc1 : tipo = none ∨ tipo = some "cambio_estado" <;>
        by_cases hc2 : tipo = none ∨ tipo = some "observacion" <;>
        simp [hc1, hc2]
    | false =>
      simp [get_actividad_global, h1, h2, hp, hpf, hids, hemp] at hr
      subst hr
      refine ⟨List.length_take_le _ _, (List.sorted_insertionSort fechaDescRel _).take, ?_, ?_⟩
      · intro ev hev
        have hev' := List.mem_of_mem_take hev
        rw [List.mem_insertionSort] at hev'
        rcases List.mem_append.mp hev' with h | h
        · split at h
          · obtain ⟨reg, hreg, rfl⟩ := List.mem_map.mp h
            exact Or.inl rfl
          · simp at h
        · split at h
          · obtain ⟨obs, hobs, rfl⟩ := List.mem_map.mp h
            exact Or.inr rfl
          · simp at h
      · refine ⟨persona, perfil, ids, hp, hpf, hids, ?_, ?_⟩
        swap
        · rw [List.length_take, List.length_insertionSort, List.length_append]
          by_cases hc1 : tipo = none ∨ tipo = some "cambio_estado" <;>
            by_cases hc2 : tipo = none ∨ tipo = some "observacion" <;>
            simp [hc1, hc2]
        intro ev hev
        have hev' := List.mem_of_mem_take hev
        rw [List.mem_insertionSort] at hev'
        rcases List.mem_append.mp hev' with h | h
        · split at h
          · obtain ⟨reg, hreg, rfl⟩ := List.mem_map.mp h
            have hc := (List.mem_filter.mp hreg).2
            simpa [evento_de_historial] using hc
          · simp at h
        · split at h
          · obtain ⟨obs, hobs, rfl⟩ := List.mem_map.mp h
            have hc := (List.mem_filter.mp hobs).2
            simpa [evento_de_observacion] using hc
          · simp at h
  · intro h
    rcases h with h | h
    · simp [get_actividad_global, h]
    · simp [get_actividad_global, h]

/-- Global feed computed for the admin caller on the example database: the
observation (fecha 5) precedes the status change (fecha 3). -/
def exFeed : ActividadResp :=
  { total := 2
    actividad :=
      [ { tipo := "observacion", fecha := 5, id_referencia := 31, id_alumno := 10
          alumno_nombre := some "Alba", alumno_apellido := some "Alumna"
          estado_nombre := none, comentario := none, texto := some "va bien"
          autor_id_persona := some 2, autor_nombre := some "Mario"
          autor_apellido := some "Maestro" }
      , { tipo := "cambio_estado", fecha := 3, id_referencia := 41, id_alumno := 10
          alumno_nombre := some "Alba", alumno_apellido := some "Alumna"
          estado_nombre := some "Seguimiento", comentario := none, texto := none
          autor_id_persona := some 2, autor_nombre := some "Mario"
          autor_apellido := some "Maestro" } ] }

/-- Witness for C9: the feed for the admin caller with limite 50 is within the
bound and sorted descending, and limite 0 is rejected. -/
theorem c9_actividad_global_bounded_witness :
    exFeed.actividad.length ≤ 50 ∧
    exFeed.actividad.Pairwise (fun a b => b.fecha ≤ a.fecha) ∧
    get_actividad_global exDB 100 0 none
      = .error (.unprocessable "limite fuera de rango") := by
  have h := (c9_actividad_global_bounded exDB 100 50 none).1 exFeed rfl
  exact ⟨h.1, h.2.1, (c9_actividad_global_bounded exDB 100 0 none).2 (Or.inl (by decide))⟩

end Dashboard
